import Mathlib

/-!
Verification of `timestomp.py` (a Windows-timestamp accessor driver).

The Python source is shallowly embedded below:

* `PyDatetime` models a `datetime.datetime` value: `musec` is the exact
  number of microseconds its naive calendar fields lie after
  1970-01-01T00:00:00 (this is the value of `dt - datetime.utcfromtimestamp(0)`
  for a naive `dt`), and `tz` models `tzinfo` (`none` = naive, `some off` =
  a fixed-offset timezone of `off` seconds).
* `datetime_to_ticks` embeds the source function of the same name.
* `parseGetLine` / the `St`-threading functions embed the
  `WindowsTimestampAccessor` protocol client and `main`.

Machine integers do not occur (Python integers are unbounded), so `Int`/`Nat`
are used directly.  Fallible Python code (raised exceptions) is embedded with
`Except PyExc`.
-/

/-- Python exceptions that the embedded code can raise. -/
inductive PyExc
  /-- `Exception("Invalid data")` raised by the protocol client. -/
  | invalidData
  /-- `ValueError` (from `int(...)`, `strptime`, or `datetime_to_ticks`). -/
  | valueError
  /-- `IndexError` (out-of-range `argv` access). -/
  | indexError
  /-- `subprocess.CalledProcessError` raised by `close()` on non-zero child exit. -/
  | calledProcess
deriving DecidableEq, Repr

/-- A `datetime.datetime` value.  `musec` is the exact microsecond offset of the
naive calendar fields from 1970-01-01T00:00:00; `tz` models `tzinfo`
(`none` means naive, `some off` a fixed offset of `off` seconds). -/
structure PyDatetime where
  musec : Int
  tz : Option Int
deriving DecidableEq, Repr

/-- `_EPOCH = 621355968000000000`: the instant 1970-01-01 00:00:00 UTC in ticks. -/
def _EPOCH : Int := 621355968000000000

/-- Embeds `datetime_to_ticks` (source lines 91-95).

`delta = dt - datetime.utcfromtimestamp(0)` is a `datetime.timedelta`, whose
normalized representation has `0 <= seconds < 86400`, `0 <= microseconds < 10^6`
and a floor-divided (sign-carrying) `days` component.  Since the divisors are
positive, Python's floor division/modulo coincide with Lean's `Int./` (`ediv`)
and `Int.%` (`emod`), which always yield a non-negative remainder for a
positive divisor. -/
def datetime_to_ticks (dt : PyDatetime) : Except PyExc Int :=
  match dt.tz with
  | some _ => Except.error PyExc.valueError
  | none =>
    let days := dt.musec / 86400000000
    let rem := dt.musec % 86400000000
    let seconds := rem / 1000000
    let microseconds := rem % 1000000
    Except.ok (((days * 86400 + seconds) * 1000000 + microseconds) * 10 + _EPOCH)

/-- Python `str.rstrip("\r\n")`: removes every trailing `'\r'` or `'\n'`. -/
def pyRstripCRLF (cs : List Char) : List Char :=
  (cs.reverse.dropWhile (fun c => c = '\r' || c = '\n')).reverse

/-- Helper for `splitTab`: `acc` holds the current token reversed. -/
def splitTabAux (acc : List Char) : List Char → List (List Char)
  | [] => [acc.reverse]
  | c :: cs => if c = '\t' then acc.reverse :: splitTabAux [] cs else splitTabAux (c :: acc) cs

/-- Python `str.split("\t")`: splits on every tab; the empty string yields `[""]`. -/
def splitTab (cs : List Char) : List (List Char) :=
  splitTabAux [] cs

/-- Numeric value of a decimal digit character. -/
def digitVal (c : Char) : Nat := c.toNat - 48

/-- Helper for Python `int(str)`: digits after the first, where a single
underscore may stand between two digits (CPython's grouping rule). -/
def pyDigitsUAux : Nat → List Char → Option Nat
  | acc, [] => some acc
  | _, ['_'] => none
  | acc, '_' :: c :: cs =>
    if c.isDigit then pyDigitsUAux (acc * 10 + digitVal c) cs else none
  | acc, c :: cs =>
    if c.isDigit then pyDigitsUAux (acc * 10 + digitVal c) cs else none

/-- Helper for Python `int(str)`: an unsigned digit string (first character must
be a digit, then `pyDigitsUAux`). -/
def pyDigitsStart : List Char → Option Nat
  | [] => none
  | c :: cs => if c.isDigit then pyDigitsUAux (digitVal c) cs else none

/-- Python `int(str)` in base 10: strip surrounding whitespace, optional single
sign, then decimal digits (with CPython's underscore grouping); anything else
raises `ValueError` (`none`). -/
def pyIntOfChars (s : List Char) : Option Int :=
  match (s.dropWhile Char.isWhitespace).reverse.dropWhile Char.isWhitespace |>.reverse with
  | '+' :: rest => (pyDigitsStart rest).map Int.ofNat
  | '-' :: rest => (pyDigitsStart rest).map (fun n => -(n : Int))
  | rest => (pyDigitsStart rest).map Int.ofNat

/-- Embeds the response handling of `_get_some_time` (source lines 60-63):
`tokens = line.rstrip("\r\n").split("\t")`; if `len(tokens) != 2 or
tokens[0] != "ok"` raise `Exception("Invalid data")`; otherwise return
`int(tokens[1])` (which itself raises `ValueError` on a non-numeric token). -/
def parseGetLine (line : String) : Except PyExc Int :=
  let tokens := splitTab (pyRstripCRLF line.data)
  if tokens.length ≠ 2 ∨ tokens.headD [] ≠ "ok".data then Except.error PyExc.invalidData
  else
    match pyIntOfChars (tokens.getD 1 []) with
    | some n => Except.ok n
    | none => Except.error PyExc.valueError

/-!
`datetime.datetime.strptime(s, "%Y/%m/%d %H:%M:%S %z")`, embedded following
CPython's `_strptime` module (3.7+): the format compiles to the regex
`(\d\d\d\d)/(1[0-2]|0[1-9]|[1-9])/(3[01]|[12]\d|0[1-9]|[1-9])`
` (2[0-3]|[0-1]\d|\d):([0-5]\d|\d):(6[0-1]|[0-5]\d|\d) `
`([+-]\d\d:?[0-5]\d(:?[0-5]\d(\.\d{1,6})?)?|Z)`, matched leftmost-first with
backtracking; `strptime` then demands the match cover the whole string and
builds a `datetime` (which validates the day against the month length and
raises `ValueError` otherwise).  Each directive parser below returns the
possible `(value, rest)` outcomes in the regex's preference order, and the
overall match is the first complete parse.
-/

/-- A literal character in the format string. -/
def pLit (c : Char) : List Char → List (Unit × List Char)
  | c' :: rest => if c' = c then [((), rest)] else []
  | [] => []

/-- `%Y`: exactly four decimal digits. -/
def pYear : List Char → List (Nat × List Char)
  | a :: b :: c :: d :: rest =>
    if a.isDigit && b.isDigit && c.isDigit && d.isDigit then
      [(digitVal a * 1000 + digitVal b * 100 + digitVal c * 10 + digitVal d, rest)]
    else []
  | _ => []

/-- `%m`: `1[0-2] | 0[1-9] | [1-9]`. -/
def pMonth (s : List Char) : List (Nat × List Char) :=
  (match s with
   | '1' :: c :: rest =>
     if c = '0' || c = '1' || c = '2' then [(10 + digitVal c, rest)] else []
   | _ => []) ++
  (match s with
   | '0' :: c :: rest => if c.isDigit && c ≠ '0' then [(digitVal c, rest)] else []
   | _ => []) ++
  (match s with
   | c :: rest => if c.isDigit && c ≠ '0' then [(digitVal c, rest)] else []
   | [] => [])

/-- `%d`: `3[01] | [12]\d | 0[1-9] | [1-9]`. -/
def pDay (s : List Char) : List (Nat × List Char) :=
  (match s with
   | '3' :: c :: rest => if c = '0' || c = '1' then [(30 + digitVal c, rest)] else []
   | _ => []) ++
  (match s with
   | c :: c2 :: rest =>
     if (c = '1' || c = '2') && c2.isDigit then [(digitVal c * 10 + digitVal c2, rest)] else []
   | _ => []) ++
  (match s with
   | '0' :: c :: rest => if c.isDigit && c ≠ '0' then [(digitVal c, rest)] else []
   | _ => []) ++
  (match s with
   | c :: rest => if c.isDigit && c ≠ '0' then [(digitVal c, rest)] else []
   | [] => [])

/-- `%H`: `2[0-3] | [0-1]\d | \d`. -/
def pHour (s : List Char) : List (Nat × List Char) :=
  (match s with
   | '2' :: c :: rest =>
     if c = '0' || c = '1' || c = '2' || c = '3' then [(20 + digitVal c, rest)] else []
   | _ => []) ++
  (match s with
   | c :: c2 :: rest =>
     if (c = '0' || c = '1') && c2.isDigit then [(digitVal c * 10 + digitVal c2, rest)] else []
   | _ => []) ++
  (match s with
   | c :: rest => if c.isDigit then [(digitVal c, rest)] else []
   | [] => [])

/-- `%M`: `[0-5]\d | \d`. -/
def pMinute (s : List Char) : List (Nat × List Char) :=
  (match s with
   | c :: c2 :: rest =>
     if (c.isDigit && digitVal c ≤ 5) && c2.isDigit then
       [(digitVal c * 10 + digitVal c2, rest)]
     else []
   | _ => []) ++
  (match s with
   | c :: rest => if c.isDigit then [(digitVal c, rest)] else []
   | [] => [])

/-- `%S`: `6[0-1] | [0-5]\d | \d` (leap seconds are accepted by the regex). -/
def pSecond (s : List Char) : List (Nat × List Char) :=
  (match s with
   | '6' :: c :: rest => if c = '0' || c = '1' then [(60 + digitVal c, rest)] else []
   | _ => []) ++
  (match s with
   | c :: c2 :: rest =>
     if (c.isDigit && digitVal c ≤ 5) && c2.isDigit then
       [(digitVal c * 10 + digitVal c2, rest)]
     else []
   | _ => []) ++
  (match s with
   | c :: rest => if c.isDigit then [(digitVal c, rest)] else []
   | [] => [])

/-- `:?` inside `%z` (greedy: prefer consuming the colon). -/
def pColonOpt (s : List Char) : List (Unit × List Char) :=
  (match s with
   | ':' :: rest => [((), rest)]
   | _ => []) ++ [((), s)]

/-- A two-digit `[0-5]\d` group inside `%z`. -/
def pzTwoDigit : List Char → List (Nat × List Char)
  | c :: c2 :: rest =>
    if (c.isDigit && digitVal c ≤ 5) && c2.isDigit then
      [(digitVal c * 10 + digitVal c2, rest)]
    else []
  | _ => []

/-- Up to `n` further digits (greedy: longest consumption first); returns the
possible remainders. -/
def pDigitsAtMost : Nat → List Char → List (List Char)
  | 0, s => [s]
  | n + 1, c :: rest => if c.isDigit then pDigitsAtMost n rest ++ [c :: rest] else [c :: rest]
  | _ + 1, [] => [[]]

/-- `(\.\d{1,6})?` inside `%z` (greedy; the fractional value only feeds the
offset's sub-second part, which the driver never uses). -/
def pFracOpt (s : List Char) : List (Unit × List Char) :=
  (match s with
   | '.' :: c :: rest =>
     if c.isDigit then (pDigitsAtMost 5 rest).map (fun r => ((), r)) else []
   | _ => []) ++ [((), s)]

/-- `(:?[0-5]\d(\.\d{1,6})?)?` inside `%z`: the optional seconds group
(greedy: prefer matching it). -/
def pzSecOpt (s : List Char) : List (Nat × List Char) :=
  ((pColonOpt s).flatMap fun p =>
    (pzTwoDigit p.2).flatMap fun q =>
      (pFracOpt q.2).map fun r => (q.1, r.2)) ++ [(0, s)]

/-- `%z`: `[+-]\d\d:?[0-5]\d(:?[0-5]\d(\.\d{1,6})?)? | Z`, yielding the UTC
offset in seconds. -/
def pZone (s : List Char) : List (Int × List Char) :=
  (match s with
   | sgn :: h1 :: h2 :: rest =>
     if (sgn = '+' || sgn = '-') && h1.isDigit && h2.isDigit then
       (pColonOpt rest).flatMap fun p =>
         (pzTwoDigit p.2).flatMap fun q =>
           (pzSecOpt q.2).map fun r =>
             (let mag : Int := (digitVal h1 * 10 + digitVal h2) * 3600 + q.1 * 60 + r.1
              if sgn = '-' then -mag else mag, r.2)
     else []
   | _ => []) ++
  (match s with
   | 'Z' :: rest => [((0 : Int), rest)]
   | _ => [])

/-- All parses of the whole format `%Y/%m/%d %H:%M:%S %z`, in regex preference
order, as `((year, month, day, hour, minute, second, offset), rest)`. -/
def strptimeMatches (s : List Char) :
    List ((Nat × Nat × Nat × Nat × Nat × Nat × Int) × List Char) :=
  (pYear s).flatMap fun y =>
  (pLit '/' y.2).flatMap fun a =>
  (pMonth a.2).flatMap fun mo =>
  (pLit '/' mo.2).flatMap fun b =>
  (pDay b.2).flatMap fun d =>
  (pLit ' ' d.2).flatMap fun c =>
  (pHour c.2).flatMap fun h =>
  (pLit ':' h.2).flatMap fun e =>
  (pMinute e.2).flatMap fun mi =>
  (pLit ':' mi.2).flatMap fun f =>
  (pSecond f.2).flatMap fun ss =>
  (pLit ' ' ss.2).flatMap fun g =>
  (pZone g.2).map fun z =>
    ((y.1, mo.1, d.1, h.1, mi.1, ss.1, z.1), z.2)

/-- Days in a month of the proleptic Gregorian calendar. -/
def daysInMonth (y m : Nat) : Nat :=
  if m = 2 then
    if y % 4 = 0 && (y % 100 ≠ 0 || y % 400 = 0) then 29 else 28
  else if m = 4 || m = 6 || m = 9 || m = 11 then 30
  else 31

/-- Days from 1970-01-01 to the given proleptic-Gregorian civil date
(Howard Hinnant's `days_from_civil`; all intermediate quantities are
non-negative for the years `1..9999` that `%Y` can produce, so `Int./` agrees
with floor division). -/
def daysFromCivil (y m d : Nat) : Int :=
  let y' : Int := if m ≤ 2 then (y : Int) - 1 else (y : Int)
  let era : Int := y' / 400
  let yoe : Int := y' - era * 400
  let mp : Int := ((m : Int) + 9) % 12
  let doy : Int := (153 * mp + 2) / 5 + (d : Int) - 1
  let doe : Int := yoe * 365 + yoe / 4 - yoe / 100 + doy
  era * 146097 + doe - 719468

/-- `datetime.datetime.strptime(s, "%Y/%m/%d %H:%M:%S %z")`: take the regex's
preferred match, require it to cover the whole string, then build the
`datetime` — which raises `ValueError` (here `none`) for year 0 or a day
beyond the month's length.  A successful parse always carries a timezone
(`%z` is mandatory in the format), so its `tz` is `some offset`. -/
def pyStrptime (s : String) : Option PyDatetime :=
  match strptimeMatches s.data with
  | [] => none
  | ((y, mo, d, h, mi, ss, off), rest) :: _ =>
    if rest ≠ [] then none
    else if y = 0 then none
    else if d > daysInMonth y mo then none
    else
      some ⟨(daysFromCivil y mo d * 86400 + ((h : Int) * 3600 + mi * 60 + ss)) * 1000000,
            some off⟩

/-- `bool(datetime)`: `datetime` defines neither `__bool__` nor `__len__`,
so every `datetime` object is truthy (this makes line 139's
`if not date: usage()` dead code). -/
def pyDatetimeTruthy (_ : PyDatetime) : Bool := true

/-!  The command-line driver (`main`, source lines 107-159) and the channel
client it drives.  The external world is collected in `Env`:

* `argv`, `isfile` (`os.path.isfile`) and `abspath` (`os.path.abspath`) model
  the process arguments and filesystem queries;
* `datetimeRepr n` models the string `"{}".format(ticks_to_datetime(n))` used
  when printing timestamps — `ticks_to_datetime` performs IEEE-754 double
  division (`(ticks - _EPOCH) / 1e7`), so its value is kept abstract;
* `dtStr` models `"{}".format(date)` for a parsed `datetime` — `main` passes
  the raw `datetime` object, not a tick count, to the Set methods;
* `responses` are the lines the child process writes to its stdout, consumed
  in order (reading past the end models EOF: `readline()` returns `""`);
* `childExit` is the child's exit status observed by `close()`.

A run produces the request lines written to the child (`writes`), the lines
printed to stdout (`output`), whether the child was launched (`launched`),
and the final `BodyOutcome`. -/

/-- Environment of one `main()` invocation. -/
structure Env where
  argv : List String
  isfile : String → Bool
  abspath : String → String
  datetimeRepr : Int → String
  dtStr : PyDatetime → String
  responses : List String
  childExit : Int

/-- How `main()`'s body ends: normal return, `sys.exit(1)` from `usage()`, or
an uncaught Python exception. -/
inductive BodyOutcome
  | ret
  | usageExit
  | exc (e : PyExc)
deriving DecidableEq, Repr

/-- Process exit status implied by an outcome: 0 for a normal return, 1 for
`sys.exit(1)` and for any uncaught exception. -/
def exitCode : BodyOutcome → Nat
  | BodyOutcome.ret => 0
  | BodyOutcome.usageExit => 1
  | BodyOutcome.exc _ => 1

/-- Mutable state threaded through `main()`: printed lines, request lines
written to the child, and the child's not-yet-consumed response lines. -/
structure St where
  output : List String
  writes : List String
  pending : List String
deriving DecidableEq, Repr

/-- Result of a whole run. -/
structure RunResult where
  launched : Bool
  output : List String
  writes : List String
  outcome : BodyOutcome
deriving DecidableEq, Repr

/-- The two lines printed by `usage()` (source lines 102-105). -/
def usageLines : List String :=
  ["usage:   ./timestomp.py path -[pmacb] [%Y/%m/%d %H:%M:%S %z]",
   "example: ./timestomp.py test.txt -ma 2000/02/28 13:03:30 UTC"]

/-- `print(l)`. -/
def printLine (l : String) (st : St) : St :=
  { st with output := st.output ++ [l] }

/-- `usage()` prints its two lines (then `sys.exit(1)`, recorded as
`BodyOutcome.usageExit` by the caller). -/
def usageSt (st : St) : St :=
  { st with output := st.output ++ usageLines }

/-- `self.response.readline()`: pop the next child line, or `""` at EOF. -/
def readline (st : St) : String × St :=
  match st.pending with
  | [] => ("", st)
  | l :: ls => (l, { st with pending := ls })

/-- The request line of `_get_some_time` (source line 58). -/
def getRequest (env : Env) (kind path : String) : String :=
  "Get" ++ kind ++ "Time\t" ++ env.abspath path ++ "\n"

/-- The request line of `_set_some_time` (source line 78); `val` is the
`"{}"`-formatted third field. -/
def setRequest (env : Env) (kind path val : String) : String :=
  "Set" ++ kind ++ "Time\t" ++ env.abspath path ++ "\t" ++ val ++ "\n"

/-- `_get_some_time` (source lines 57-63): write the request, read one line,
parse it with `parseGetLine`. -/
def getSomeTime (env : Env) (kind path : String) (st : St) : Except PyExc Int × St :=
  let st1 := { st with writes := st.writes ++ [getRequest env kind path] }
  let (line, st2) := readline st1
  (parseGetLine line, st2)

/-- `_set_some_time` (source lines 77-82): write the request, read one line,
succeed iff it equals `"ok"` after `rstrip("\r\n")`. -/
def setSomeTime (env : Env) (kind path val : String) (st : St) : Except PyExc Unit × St :=
  let st1 := { st with writes := st.writes ++ [setRequest env kind path val] }
  let (line, st2) := readline st1
  if pyRstripCRLF line.data = "ok".data then (Except.ok (), st2)
  else (Except.error PyExc.invalidData, st2)

/-- The three consecutive Get calls of the print block (source lines 128-130
and 154-156), in source order: Access, Modification, Creation. -/
def getTimes3 (env : Env) (path : String) (st : St) :
    Except PyExc (Int × Int × Int) × St :=
  match getSomeTime env "Access" path st with
  | (Except.error e, st') => (Except.error e, st')
  | (Except.ok a, st') =>
    match getSomeTime env "Modification" path st' with
    | (Except.error e, st'') => (Except.error e, st'')
    | (Except.ok m, st'') =>
      match getSomeTime env "Creation" path st'' with
      | (Except.error e, st3) => (Except.error e, st3)
      | (Except.ok cr, st3) => (Except.ok (a, m, cr), st3)

/-- The three labelled prints of the print block (source lines 131-133 and
157-159). -/
def printTimes (env : Env) (a m cr : Int) (st : St) : St :=
  { st with output := st.output ++
      ["access_time:       " ++ env.datetimeRepr a,
       "modification_time: " ++ env.datetimeRepr m,
       "birth_time:        " ++ env.datetimeRepr cr] }

/-- Is `c` one of the recognized flag letters (source line 124)? -/
def validFlag (c : Char) : Bool :=
  c = 'p' || c = 'm' || c = 'a' || c = 'c' || c = 'b'

/-- `argv[2].startswith("-")`. -/
def pyStartsWithDash (s : String) : Bool :=
  match s.data with
  | '-' :: _ => true
  | [] => false
  | _ :: _ => false

/-- The per-letter Set loop (source lines 142-150): `m`/`a`/`b` issue Set
requests for Modification/Access/Creation, `c` prints a notice, `p` does
nothing here; the first protocol failure aborts the loop. -/
def setLoop (env : Env) (path dval : String) :
    List Char → St → Except PyExc Unit × St
  | [], st => (Except.ok (), st)
  | c :: cs, st =>
    if c = 'm' then
      match setSomeTime env "Modification" path dval st with
      | (Except.ok _, st') => setLoop env path dval cs st'
      | (Except.error e, st') => (Except.error e, st')
    else if c = 'a' then
      match setSomeTime env "Access" path dval st with
      | (Except.ok _, st') => setLoop env path dval cs st'
      | (Except.error e, st') => (Except.error e, st')
    else if c = 'c' then
      setLoop env path dval cs (printLine "c (MFT change) not implemented yet" st)
    else if c = 'b' then
      match setSomeTime env "Creation" path dval st with
      | (Except.ok _, st') => setLoop env path dval cs st'
      | (Except.error e, st') => (Except.error e, st')
    else
      setLoop env path dval cs st

/-- Source lines 138-159: fetch `argv[3]` (raising `IndexError` when absent),
parse it with `strptime` (raising `ValueError` on failure), run the dead
`if not date` check, apply the Set loop, and re-print the three timestamps
when `p` was among the flags. -/
def doSets (env : Env) (path : String) (commands : List Char) (st : St) :
    St × BodyOutcome :=
  match env.argv.get? 3 with
  | none => (st, BodyOutcome.exc PyExc.indexError)
  | some dateArg =>
    match pyStrptime dateArg with
    | none => (st, BodyOutcome.exc PyExc.valueError)
    | some date =>
      if pyDatetimeTruthy date = false then (usageSt st, BodyOutcome.usageExit)
      else
        match setLoop env path (env.dtStr date) commands st with
        | (Except.error e, st') => (st', BodyOutcome.exc e)
        | (Except.ok _, st') =>
          if commands.contains 'p' then
            let st'' := printLine ("times for " ++ path ++ " changed to: ") st'
            match getTimes3 env path st'' with
            | (Except.error e, st3) => (st3, BodyOutcome.exc e)
            | (Except.ok (a, m, cr), st3) => (printTimes env a m cr st3, BodyOutcome.ret)
          else (st', BodyOutcome.ret)

/-- Source lines 127-159: the print block (three Gets and three labelled
prints when `p` is among the flags, returning immediately when `p` is the
only flag), then `doSets`. -/
def afterFlags (env : Env) (path : String) (commands : List Char) (st : St) :
    St × BodyOutcome :=
  if commands.contains 'p' then
    match getTimes3 env path st with
    | (Except.error e, st') => (st', BodyOutcome.exc e)
    | (Except.ok (a, m, cr), st') =>
      let st'' := printTimes env a m cr st'
      if commands.length = 1 then (st'', BodyOutcome.ret)
      else doSets env path commands st''
  else doSets env path commands st

/-- The body of `main()` (source lines 107-159): argument-count, file and
flag-shape checks (each failure prints usage and exits), the debug print,
per-letter flag validation, then `afterFlags`. -/
def mainBody (env : Env) : St × BodyOutcome :=
  let st0 : St := ⟨[], [], env.responses⟩
  if env.argv.length < 3 then (usageSt st0, BodyOutcome.usageExit)
  else
    let path := env.argv.getD 1 ""
    if env.isfile path = false then (usageSt st0, BodyOutcome.usageExit)
    else if pyStartsWithDash (env.argv.getD 2 "") = false then
      (usageSt st0, BodyOutcome.usageExit)
    else
      let st1 := printLine "DEBUG: made it here" st0
      let commands := (env.argv.getD 2 "").data.drop 1
      if commands.any (fun c => !(validFlag c)) then (usageSt st1, BodyOutcome.usageExit)
      else afterFlags env path commands st1

/-- A whole invocation: `with WindowsTimestampAccessor() as wt` launches the
child process (source line 108) before anything else — in particular before
any argument validation — and on every exit path `close()` waits for the
child; a non-zero child exit turns the outcome into an uncaught
`CalledProcessError` (Python's exit status is 1 on every non-`ret` path). -/
def pyRun (env : Env) : RunResult :=
  let r := mainBody env
  { launched := true
    output := r.1.output
    writes := r.1.writes
    outcome := if env.childExit = 0 then r.2 else BodyOutcome.exc PyExc.calledProcess }

/-- Concrete invocation for C1: the tool's own usage example,
`./timestomp.py test.txt -ma 2000/02/28 13:03:30 UTC`, with an existing
target file and no child responses (none are needed: the run crashes before
any request is written). -/
def envC1 : Env :=
  { argv := ["./timestomp.py", "test.txt", "-ma", "2000/02/28", "13:03:30", "UTC"]
    isfile := fun _ => true
    abspath := fun s => s
    datetimeRepr := fun _ => ""
    dtStr := fun _ => ""
    responses := []
    childExit := 0 }

/-- Concrete invocation for C3: `./timestomp.py test.txt -x` (unknown flag
letter) on an existing file, child exiting cleanly. -/
def envC3 : Env :=
  { argv := ["./timestomp.py", "test.txt", "-x"]
    isfile := fun _ => true
    abspath := fun s => s
    datetimeRepr := fun _ => ""
    dtStr := fun _ => ""
    responses := []
    childExit := 0 }

/-- Concrete invocation for C4: `./timestomp.py test.txt -m not-a-date` — a
mutating flag with an unparseable fourth argument. -/
def envC4 : Env :=
  { argv := ["./timestomp.py", "test.txt", "-m", "not-a-date"]
    isfile := fun _ => true
    abspath := fun s => s
    datetimeRepr := fun _ => ""
    dtStr := fun _ => ""
    responses := []
    childExit := 0 }

/-- Concrete invocation for C8's witness: `./timestomp.py test.txt -p` with a
well-behaved child. -/
def envC8 : Env :=
  { argv := ["./timestomp.py", "test.txt", "-p"]
    isfile := fun _ => true
    abspath := fun s => s
    datetimeRepr := fun n => toString n
    dtStr := fun _ => ""
    responses := ["ok\t10", "ok\t20", "ok\t30"]
    childExit := 0 }

/-- Concrete invocation for C10's witness: `./timestomp.py test.txt -m` (a
mutating flag, no date argument) with a well-behaved child. -/
def envC10 : Env :=
  { argv := ["./timestomp.py", "test.txt", "-m"]
    isfile := fun _ => true
    abspath := fun s => s
    datetimeRepr := fun n => toString n
    dtStr := fun _ => ""
    responses := ["ok\t0", "ok\t0", "ok\t0"]
    childExit := 0 }

/-- C5: the Get response handler returns the integer `n` exactly when the
line, after stripping trailing line terminators, splits on tab into exactly
two tokens, the first being the literal `"ok"` and the second parsing (via
Python `int`) to `n`; every other line shape (wrong token count, first token
not `"ok"`, non-numeric second token) makes it fail — `parseGetLine` being a
total function into `Except`, any line not matched by the right-hand side
yields `Except.error` (the source's `Exception("Invalid data")` /
`ValueError`, both fatal protocol failures). -/
theorem c5_get_response_parse (line : String) (n : Int) :
    parseGetLine line = Except.ok n ↔
      ∃ t, splitTab (pyRstripCRLF line.data) = ["ok".data, t] ∧
        pyIntOfChars t = some n := by
  have key : ∀ l : List (List Char),
      ((if l.length ≠ 2 ∨ l.headD [] ≠ "ok".data then Except.error PyExc.invalidData
        else
          match pyIntOfChars (l.getD 1 []) with
          | some m => Except.ok m
          | none => Except.error PyExc.valueError) = Except.ok n) ↔
        ∃ t, l = ["ok".data, t] ∧ pyIntOfChars t = some n := by
    intro l
    constructor
    · intro h
      by_cases hc : l.length ≠ 2 ∨ l.headD [] ≠ "ok".data
      · rw [if_pos hc] at h
        simp at h
      · rw [if_neg hc] at h
        push_neg at hc
        obtain ⟨hlen, hhead⟩ := hc
        rcases l with _ | ⟨t0, _ | ⟨t1, _ | ⟨t2, tl⟩⟩⟩ <;> simp at hlen
        simp only [List.headD_cons] at hhead
        subst hhead
        simp only [List.getD_cons_succ, List.getD_cons_zero] at h
        rcases hv : pyIntOfChars t1 with _ | m <;> rw [hv] at h
        · simp at h
        · simp only [Except.ok.injEq] at h
          exact ⟨t1, rfl, by rw [hv, h]⟩
    · rintro ⟨t, rfl, hpt⟩
      have hc : ¬((["ok".data, t].length ≠ 2) ∨ (["ok".data, t].headD [] ≠ "ok".data)) := by
        simp
      rw [if_neg hc]
      simp only [List.getD_cons_succ, List.getD_cons_zero]
      rw [hpt]
  exact key (splitTab (pyRstripCRLF line.data))

/-- C6: for every naive timestamp, `datetime_to_ticks` returns
`((days*86400 + seconds)*1000000 + microseconds)*10 + 621355968000000000`,
where `(days, seconds, microseconds)` is the (unique) signed decomposition of
the timestamp minus the Unix epoch: `days` of arbitrary sign and normalized
`0 ≤ seconds < 86400`, `0 ≤ microseconds < 1000000`. -/
theorem c6_ticks_formula (ts : PyDatetime) (d s u : Int)
    (hnaive : ts.tz = none)
    (hs0 : 0 ≤ s) (hs1 : s < 86400) (hu0 : 0 ≤ u) (hu1 : u < 1000000)
    (hdec : ts.musec = (d * 86400 + s) * 1000000 + u) :
    datetime_to_ticks ts =
      Except.ok (((d * 86400 + s) * 1000000 + u) * 10 + 621355968000000000) := by
  obtain ⟨μ, tz⟩ := ts
  simp only at hnaive hdec
  subst hnaive
  simp only [datetime_to_ticks, _EPOCH, Except.ok.injEq]
  omega

/-- Witness for C6 at the concrete naive timestamp 1.234567 s after the epoch,
whose signed decomposition is `days = 0`, `seconds = 1`, `microseconds = 234567`. -/
theorem c6_ticks_formula_witness :
    datetime_to_ticks ⟨1234567, none⟩ =
      Except.ok (((0 * 86400 + 1) * 1000000 + 234567) * 10 + 621355968000000000) :=
  c6_ticks_formula ⟨1234567, none⟩ 0 1 234567 rfl (by norm_num) (by norm_num)
    (by norm_num) (by norm_num) (by norm_num)

/-- C7: `datetime_to_ticks` fails exactly when its argument carries timezone
metadata (`tzinfo` not `None`); on every naive timestamp it succeeds. -/
theorem c7_naive_iff (ts : PyDatetime) :
    (∃ e, datetime_to_ticks ts = Except.error e) ↔ ts.tz ≠ none := by
  obtain ⟨μ, tz⟩ := ts
  cases tz <;> simp [datetime_to_ticks]

/-- C9: every tick value produced by `datetime_to_ticks` is a multiple of 10:
the result is `(integer) * 10 + _EPOCH` and `_EPOCH` itself ends in a zero digit. -/
theorem c9_ticks_multiple_of_ten (ts : PyDatetime) (n : Int)
    (h : datetime_to_ticks ts = Except.ok n) : n % 10 = 0 := by
  obtain ⟨μ, tz⟩ := ts
  cases tz with
  | none =>
    simp only [datetime_to_ticks, _EPOCH, Except.ok.injEq] at h
    omega
  | some off => simp [datetime_to_ticks] at h

/-- Witness for C9 at the naive Unix-epoch timestamp, whose tick value is
`_EPOCH` itself. -/
theorem c9_ticks_multiple_of_ten_witness :
    (621355968000000000 : Int) % 10 = 0 ∧
      datetime_to_ticks ⟨0, none⟩ = Except.ok 621355968000000000 :=
  ⟨c9_ticks_multiple_of_ten ⟨0, none⟩ 621355968000000000 rfl, rfl⟩

/-- Unfolding `getTimes3` when three well-formed responses are pending. -/
theorem getTimes3_cons (env : Env) (path : String) (out wr : List String)
    (r1 r2 r3 : String) (rs : List String) (n1 n2 n3 : Int)
    (h1 : parseGetLine r1 = Except.ok n1) (h2 : parseGetLine r2 = Except.ok n2)
    (h3 : parseGetLine r3 = Except.ok n3) :
    getTimes3 env path ⟨out, wr, r1 :: r2 :: r3 :: rs⟩ =
      (Except.ok (n1, n2, n3),
        ⟨out,
         wr ++ [getRequest env "Access" path, getRequest env "Modification" path,
                getRequest env "Creation" path],
         rs⟩) := by
  simp [getTimes3, getSomeTime, readline, h1, h2, h3]

/-- Unfolding `mainBody` through all four argument checks when they pass. -/
theorem mainBody_valid (env : Env) (p0 path flags : String) (rest : List String)
    (hargv : env.argv = p0 :: path :: flags :: rest)
    (hfile : env.isfile path = true) (hdash : pyStartsWithDash flags = true)
    (hflags : (flags.data.drop 1).all validFlag = true) :
    mainBody env = afterFlags env path (flags.data.drop 1)
      ⟨["DEBUG: made it here"], [], env.responses⟩ := by
  have h3 : ¬ (env.argv.length < 3) := by
    rw [hargv]
    simp only [List.length_cons]
    omega
  have hany : ((flags.data.drop 1).any fun c => !(validFlag c)) = false := by
    rw [List.any_eq_false]
    intro c hc
    rw [List.all_eq_true] at hflags
    simp [hflags c hc]
  have hTF : ¬ (true = false) := by simp
  have hFT : ¬ (false = true) := by simp
  simp only [mainBody]
  rw [if_neg h3, hargv]
  simp only [List.getD_cons_succ, List.getD_cons_zero]
  rw [hfile, hdash]
  rw [if_neg hTF]
  rw [if_neg hTF]
  rw [hany]
  rw [if_neg hFT]
  rfl

/-- Unfolding `mainBody` when the target path is not a regular file. -/
theorem mainBody_no_file (env : Env) (p0 path flags : String) (rest : List String)
    (hargv : env.argv = p0 :: path :: flags :: rest)
    (hfile : env.isfile path = false) :
    mainBody env = (⟨usageLines, [], env.responses⟩, BodyOutcome.usageExit) := by
  have h3 : ¬ (env.argv.length < 3) := by
    rw [hargv]
    simp only [List.length_cons]
    omega
  simp only [mainBody]
  rw [if_neg h3, hargv]
  simp only [List.getD_cons_succ, List.getD_cons_zero]
  rw [hfile]
  rw [if_pos (show (false = false) from rfl)]
  rfl

/-- Unfolding `mainBody` when the flag token contains an unknown letter. -/
theorem mainBody_bad_flag (env : Env) (p0 path flags : String) (rest : List String)
    (hargv : env.argv = p0 :: path :: flags :: rest)
    (hfile : env.isfile path = true) (hdash : pyStartsWithDash flags = true)
    (hbad : ((flags.data.drop 1).any fun c => !(validFlag c)) = true) :
    mainBody env =
      (⟨"DEBUG: made it here" :: usageLines, [], env.responses⟩,
       BodyOutcome.usageExit) := by
  have h3 : ¬ (env.argv.length < 3) := by
    rw [hargv]
    simp only [List.length_cons]
    omega
  have hTF : ¬ (true = false) := by simp
  simp only [mainBody]
  rw [if_neg h3, hargv]
  simp only [List.getD_cons_succ, List.getD_cons_zero]
  rw [hfile, hdash]
  rw [if_neg hTF]
  rw [if_neg hTF]
  rw [hbad]
  rw [if_pos (show (true = true) from rfl)]
  rfl

/-- A list containing two distinct elements does not have length 1. -/
theorem length_ne_one_of_mem_ne {l : List Char} {a b : Char}
    (ha : a ∈ l) (hb : b ∈ l) (hne : a ≠ b) : l.length ≠ 1 := by
  intro hl
  rcases l with _ | ⟨x, _ | ⟨y, t⟩⟩
  · simp at hl
  · simp only [List.mem_singleton] at ha hb
    exact hne (ha.trans hb.symm)
  · simp only [List.length_cons] at hl
    omega

/-- Unfolding `afterFlags` for the flag list `['p']` with three well-formed
responses pending: three Gets, three prints, then return. -/
theorem afterFlags_p_only (env : Env) (path : String) (out wr : List String)
    (r1 r2 r3 : String) (rs : List String) (n1 n2 n3 : Int)
    (h1 : parseGetLine r1 = Except.ok n1) (h2 : parseGetLine r2 = Except.ok n2)
    (h3 : parseGetLine r3 = Except.ok n3) :
    afterFlags env path ['p'] ⟨out, wr, r1 :: r2 :: r3 :: rs⟩ =
      (⟨out ++ ["access_time:       " ++ env.datetimeRepr n1,
               "modification_time: " ++ env.datetimeRepr n2,
               "birth_time:        " ++ env.datetimeRepr n3],
        wr ++ [getRequest env "Access" path, getRequest env "Modification" path,
               getRequest env "Creation" path],
        rs⟩, BodyOutcome.ret) := by
  have hg := getTimes3_cons env path out wr r1 r2 r3 rs n1 n2 n3 h1 h2 h3
  simp [afterFlags, hg, printTimes]

/-- C8: with flag token exactly `-p` and an existing regular file, the program
issues exactly the three Get requests (Access, Modification, Creation, in
source order), prints the debug line plus the three labelled timestamp lines
(access, modification, birth), writes nothing else, and returns normally —
i.e. exits 0 (`BodyOutcome.ret`, the only outcome with `exitCode` 0) — with
no date argument consulted. -/
theorem c8_print_only (env : Env) (p0 path r1 r2 r3 : String) (rs : List String)
    (n1 n2 n3 : Int)
    (hargv : env.argv = [p0, path, "-p"])
    (hfile : env.isfile path = true)
    (hresp : env.responses = r1 :: r2 :: r3 :: rs)
    (h1 : parseGetLine r1 = Except.ok n1) (h2 : parseGetLine r2 = Except.ok n2)
    (h3 : parseGetLine r3 = Except.ok n3)
    (hchild : env.childExit = 0) :
    pyRun env =
      { launched := true
        output := ["DEBUG: made it here",
                   "access_time:       " ++ env.datetimeRepr n1,
                   "modification_time: " ++ env.datetimeRepr n2,
                   "birth_time:        " ++ env.datetimeRepr n3]
        writes := [getRequest env "Access" path, getRequest env "Modification" path,
                   getRequest env "Creation" path]
        outcome := BodyOutcome.ret } := by
  have hmb := mainBody_valid env p0 path "-p" [] hargv hfile rfl rfl
  have hdata : "-p".data.drop 1 = ['p'] := rfl
  rw [hdata, hresp] at hmb
  have hp := afterFlags_p_only env path ["DEBUG: made it here"] [] r1 r2 r3 rs n1 n2 n3 h1 h2 h3
  simp [pyRun, hmb, hp, hchild]

/-- Witness for C8 at `envC8`. -/
theorem c8_print_only_witness :
    pyRun envC8 =
      { launched := true
        output := ["DEBUG: made it here",
                   "access_time:       " ++ envC8.datetimeRepr 10,
                   "modification_time: " ++ envC8.datetimeRepr 20,
                   "birth_time:        " ++ envC8.datetimeRepr 30]
        writes := [getRequest envC8 "Access" "test.txt",
                   getRequest envC8 "Modification" "test.txt",
                   getRequest envC8 "Creation" "test.txt"]
        outcome := BodyOutcome.ret } :=
  c8_print_only envC8 "./timestomp.py" "test.txt" "ok\t10" "ok\t20" "ok\t30" [] 10 20 30
    rfl rfl rfl rfl rfl rfl rfl

/-- C10: with an existing regular file, a valid flag token containing a
mutating letter (`m`, `a`, `c` or `b`) and no fourth argument, the program
ends in an uncaught `IndexError` (the unguarded `argv[3]` access on source
line 138) instead of the usage exit.  The well-formed-response hypotheses
cover the sub-case in which `p` is also present and three Gets are served
before the crash. -/
theorem c10_missing_date_index_error (env : Env) (p0 path flags r1 r2 r3 : String)
    (rs : List String) (n1 n2 n3 : Int)
    (hargv : env.argv = [p0, path, flags])
    (hfile : env.isfile path = true)
    (hdash : pyStartsWithDash flags = true)
    (hvalid : (flags.data.drop 1).all validFlag = true)
    (hmut : ∃ c ∈ flags.data.drop 1, c = 'm' ∨ c = 'a' ∨ c = 'c' ∨ c = 'b')
    (hresp : env.responses = r1 :: r2 :: r3 :: rs)
    (h1 : parseGetLine r1 = Except.ok n1) (h2 : parseGetLine r2 = Except.ok n2)
    (h3 : parseGetLine r3 = Except.ok n3)
    (hchild : env.childExit = 0) :
    (pyRun env).outcome = BodyOutcome.exc PyExc.indexError := by
  have hmb := mainBody_valid env p0 path flags [] hargv hfile hdash hvalid
  rw [hresp] at hmb
  have hget3 : env.argv.get? 3 = none := by rw [hargv]; rfl
  have houtc : (pyRun env).outcome =
      if env.childExit = 0 then (mainBody env).2 else BodyOutcome.exc PyExc.calledProcess := rfl
  rw [houtc, if_pos hchild, hmb]
  simp only [afterFlags]
  by_cases hp : (flags.data.drop 1).contains 'p' = true
  · obtain ⟨c, hcmem, hcval⟩ := hmut
    have hcp : 'p' ≠ c := by rcases hcval with h | h | h | h <;> simp [h]
    have hpmem : 'p' ∈ flags.data.drop 1 := List.elem_iff.mp hp
    have hlen := length_ne_one_of_mem_ne hpmem hcmem hcp
    have hg := getTimes3_cons env path ["DEBUG: made it here"] [] r1 r2 r3 rs n1 n2 n3 h1 h2 h3
    rw [if_pos hp]
    simp only [hg]
    rw [if_neg hlen]
    simp only [doSets, hget3]
  · rw [if_neg hp]
    simp only [doSets, hget3]

/-- Witness for C10 at `envC10`. -/
theorem c10_missing_date_index_error_witness :
    (pyRun envC10).outcome = BodyOutcome.exc PyExc.indexError :=
  c10_missing_date_index_error envC10 "./timestomp.py" "test.txt" "-m" "ok\t0" "ok\t0" "ok\t0"
    [] 0 0 0 rfl rfl rfl rfl ⟨'m', by decide, Or.inl rfl⟩ rfl rfl rfl rfl rfl

/-- C3, counterexample: on `./timestomp.py test.txt -x` (unknown flag letter,
existing file) the program does print usage and exit non-zero — but the
external accessor process HAS been launched (`with WindowsTimestampAccessor()`
runs on source line 108, before any argument validation), contradicting the
claim's "without ever contacting (launching or writing to) the external
accessor process". -/
theorem c3_counterexample :
    (pyRun envC3).launched = true ∧ (pyRun envC3).outcome = BodyOutcome.usageExit ∧
      (pyRun envC3).writes = [] :=
  ⟨rfl, rfl, rfl⟩

/-- C3, amended: for every invocation whose flag token (the dash-initial third
argument) contains a character outside `{p, m, a, c, b}`, the program prints
the usage text and exits with a non-zero status without ever WRITING to the
external accessor process — but the accessor process is launched at startup,
before any argument validation. -/
theorem c3_usage_amended (env : Env) (p0 path flags : String) (rest : List String)
    (hargv : env.argv = p0 :: path :: flags :: rest)
    (hdash : pyStartsWithDash flags = true)
    (hbad : ∃ c ∈ flags.data.drop 1, validFlag c = false) :
    (pyRun env).launched = true ∧ (pyRun env).writes = [] ∧
      List.IsSuffix usageLines (pyRun env).output ∧
      exitCode (pyRun env).outcome ≠ 0 := by
  have hany : ((flags.data.drop 1).any fun c => !(validFlag c)) = true := by
    rw [List.any_eq_true]
    obtain ⟨c, hc, hv⟩ := hbad
    exact ⟨c, hc, by simp [hv]⟩
  have houtc : (pyRun env).outcome =
      if env.childExit = 0 then (mainBody env).2 else BodyOutcome.exc PyExc.calledProcess := rfl
  by_cases hfile : env.isfile path = true
  · have hmb := mainBody_bad_flag env p0 path flags rest hargv hfile hdash hany
    have hw : (pyRun env).writes = [] := by
      show (mainBody env).1.writes = []
      rw [hmb]
    have hout : (pyRun env).output = "DEBUG: made it here" :: usageLines := by
      show (mainBody env).1.output = _
      rw [hmb]
    refine ⟨rfl, hw, ?_, ?_⟩
    · rw [hout]
      exact ⟨["DEBUG: made it here"], rfl⟩
    · rw [houtc, hmb]
      by_cases hch : env.childExit = 0
      · rw [if_pos hch]
        simp [exitCode]
      · rw [if_neg hch]
        simp [exitCode]
  · have hfile' : env.isfile path = false := by
      simpa using hfile
    have hmb := mainBody_no_file env p0 path flags rest hargv hfile'
    have hw : (pyRun env).writes = [] := by
      show (mainBody env).1.writes = []
      rw [hmb]
    have hout : (pyRun env).output = usageLines := by
      show (mainBody env).1.output = _
      rw [hmb]
    refine ⟨rfl, hw, ?_, ?_⟩
    · rw [hout]
    · rw [houtc, hmb]
      by_cases hch : env.childExit = 0
      · rw [if_pos hch]
        simp [exitCode]
      · rw [if_neg hch]
        simp [exitCode]

/-- Witness for the amended C3 at `envC3`. -/
theorem c3_usage_amended_witness :
    (pyRun envC3).launched = true ∧ (pyRun envC3).writes = [] ∧
      List.IsSuffix usageLines (pyRun envC3).output ∧
      exitCode (pyRun envC3).outcome ≠ 0 :=
  c3_usage_amended envC3 "./timestomp.py" "test.txt" "-x" [] rfl rfl ⟨'x', by decide, rfl⟩

/-- C1 (code bug): on the tool's own usage example
`./timestomp.py test.txt -ma 2000/02/28 13:03:30 UTC` (an existing file, a
parseable date/time per the documented pattern), the program raises an
uncaught `ValueError` and writes NO request at all: `main` passes only
`argv[3]` (`"2000/02/28"`) to `strptime` while the format
`%Y/%m/%d %H:%M:%S %z` requires date, time and zone in a single string, so
the parse always fails for the documented four-token invocation; moreover the
Set calls (never reached) pass the `datetime` object itself, not
`datetime_to_ticks` of it. -/
theorem c1_usage_example_crashes :
    (pyRun envC1).outcome = BodyOutcome.exc PyExc.valueError ∧
      (pyRun envC1).writes = [] :=
  ⟨rfl, rfl⟩

/-- C4 (code bug): on `./timestomp.py test.txt -m not-a-date` the unparseable
fourth argument makes `strptime` raise an uncaught `ValueError`: the program
terminates non-zero but prints NO usage text (its `if not date: usage()`
guard is dead code, since `strptime` raises instead of returning a falsy
value) — the whole output is the stray debug line. -/
theorem c4_parse_failure_crashes :
    (pyRun envC4).outcome = BodyOutcome.exc PyExc.valueError ∧
      (pyRun envC4).output = ["DEBUG: made it here"] :=
  ⟨rfl, rfl⟩
